import Mathlib

/-!
Shallow embedding of the mood-to-recommendation pipeline of the
INF332 Hackathon movies backend:

* `app/ai/genre_mapper.py` — genre vocabulary and static fallback map;
* `app/ai/gemini_emotion.py` — remote classifier response handling;
* `app/clients/tmdb.py` — deterministic page/sort seed function and the
  discovery / search / watch-provider client operations;
* `app/services/recommendation_service.py` — orchestrator with TTL cache.

External I/O (HTTP responses of the catalog and of the remote classifier)
is supplied by an explicit environment; exceptions are `Except`; upstream
invocations are recorded in an effect trace so that claims about which
providers get called can be stated. Python floats carrying normalized
scores are modelled as rationals.
-/

/-! ## Data model (`app/models.py`) -/

/-- `Recommendation` of `app/models.py`: title, source tag, score,
optional list of streaming providers. -/
structure Recommendation where
  title : String
  source : String := "TMDB"
  score : ℚ := 7/10
  providers : Option (List String) := none
deriving DecidableEq, Repr

/-- `RecommendationList` of `app/models.py`. -/
structure RecommendationList where
  items : List Recommendation
deriving DecidableEq, Repr

/-! ## Python string primitives

`str.lower` and `str.strip` are modelled by structural recursion over the
character list (Lean's own `String.toLower`/`String.trim` recurse on byte
positions and do not reduce inside the kernel); on the ASCII data of this
program they agree with Python. -/

/-- Python `str.lower()`. -/
def pyLower (s : String) : String := String.mk (s.data.map Char.toLower)

/-- Python `str.strip()`: drop leading and trailing whitespace. -/
def pyStrip (s : String) : String :=
  String.mk (((s.data.dropWhile Char.isWhitespace).reverse.dropWhile
                Char.isWhitespace).reverse)

/-- `mood.lower().strip()`, the cache-key normalization of
`recommend_by_mood`. -/
def normalizeMood (mood : String) : String := pyStrip (pyLower mood)

/-! ## Genre vocabulary and static fallback (`app/ai/genre_mapper.py`) -/

/-- `TMDB_GENRES` of `app/ai/genre_mapper.py`: genre name to TMDB id. -/
def TMDB_GENRES : List (String × Int) :=
  [("Action", 28), ("Adventure", 12), ("Animation", 16), ("Comedy", 35),
   ("Crime", 80), ("Documentary", 99), ("Drama", 18), ("Family", 10751),
   ("Fantasy", 14), ("History", 36), ("Horror", 27), ("Music", 10402),
   ("Mystery", 9648), ("Romance", 10749), ("Science Fiction", 878),
   ("TV Movie", 10770), ("Thriller", 53), ("War", 10752), ("Western", 37)]

/-- Python dict access `TMDB_GENRES[name]`; every call site uses a name
that is a key, so the default branch is unreachable at call sites. -/
def tmdbGenreId (name : String) : Int :=
  match TMDB_GENRES.find? (fun p => p.1 = name) with
  | some p => p.2
  | none => 0

/-- `FALLBACK_MAP` of `app/ai/genre_mapper.py`: mood keyword to genre
names (bilingual, lower-case keys). -/
def FALLBACK_MAP : List (String × List String) :=
  [("feliz", ["Comedy", "Romance"]), ("happy", ["Comedy", "Romance"]),
   ("triste", ["Drama"]), ("sad", ["Drama"]),
   ("ansioso", ["Mystery", "Thriller"]), ("anxious", ["Mystery", "Thriller"]),
   ("focado", ["Documentary"]), ("focused", ["Documentary"]),
   ("bravo", ["Action"]), ("angry", ["Action"])]

/-- `fallback_genres_for` of `app/ai/genre_mapper.py`: empty mood gives
`[]`; otherwise look the lower-cased mood up in `FALLBACK_MAP`, defaulting
to `["Comedy"]`, truncate to `top_k` and pair each name with its id. -/
def fallback_genres_for (mood : String) (top_k : Nat) : List (String × Int) :=
  if mood = "" then []
  else
    let lower := pyLower mood
    let names :=
      match FALLBACK_MAP.find? (fun p => p.1 = lower) with
      | some p => p.2
      | none => ["Comedy"]
    (names.take top_k).map (fun n => (n, tmdbGenreId n))

/-! ## Remote classifier (`app/ai/gemini_emotion.py`) -/

/-- Outcome of the remote Gemini call as seen by the parsing code of
`map_via_gemini_api`: the configured key may be missing (raises before
any I/O), the transport or the HTTP/JSON layer may fail (every such
branch raises `RuntimeError`), or a JSON array of genre-name strings is
extracted from the first candidate. -/
inductive RemoteOutcome where
  | noKey
  | netError
  | response (names : List String)
deriving DecidableEq, Repr

/-- `map_via_gemini_api` of `app/ai/gemini_emotion.py`, at the level of
the parsed response: names are filtered against the vocabulary; zero
valid names raises; otherwise the first `top_k` valid names are paired
with their ids. -/
def map_via_gemini_api (out : RemoteOutcome) (top_k : Nat) :
    Except String (List (String × Int)) :=
  match out with
  | RemoteOutcome.noKey => Except.error "GEMINI_API_KEY not configured"
  | RemoteOutcome.netError => Except.error "HTTP client error"
  | RemoteOutcome.response names =>
    let valid := names.filter (fun g => (TMDB_GENRES.find? (fun p => p.1 = g)).isSome)
    if valid = [] then Except.error "No valid genres found in response"
    else Except.ok ((valid.take top_k).map (fun n => (n, tmdbGenreId n)))

/-! ## SHA-256 over natural numbers (for `_pick_page` of `app/clients/tmdb.py`) -/

/-- Truncate to a 32-bit word. -/
def w32 (n : Nat) : Nat := n % 4294967296

/-- 32-bit addition. -/
def add32 (a b : Nat) : Nat := (a + b) % 4294967296

/-- 32-bit right rotation. -/
def rotr (n x : Nat) : Nat := ((x >>> n) ||| (x <<< (32 - n))) % 4294967296

/-- 32-bit bitwise complement (valid for `x < 2^32`). -/
def not32 (x : Nat) : Nat := x ^^^ 4294967295

/-- SHA-256 choice function. -/
def shaCh (x y z : Nat) : Nat := (x &&& y) ^^^ (not32 x &&& z)

/-- SHA-256 majority function. -/
def shaMaj (x y z : Nat) : Nat := (x &&& y) ^^^ (x &&& z) ^^^ (y &&& z)

/-- SHA-256 Σ0. -/
def bigSigma0 (x : Nat) : Nat := rotr 2 x ^^^ rotr 13 x ^^^ rotr 22 x

/-- SHA-256 Σ1. -/
def bigSigma1 (x : Nat) : Nat := rotr 6 x ^^^ rotr 11 x ^^^ rotr 25 x

/-- SHA-256 σ0. -/
def smallSigma0 (x : Nat) : Nat := rotr 7 x ^^^ rotr 18 x ^^^ (x >>> 3)

/-- SHA-256 σ1. -/
def smallSigma1 (x : Nat) : Nat := rotr 17 x ^^^ rotr 19 x ^^^ (x >>> 10)

/-- SHA-256 round constants (FIPS 180-4, written in decimal). -/
def shaK : List Nat :=
  [1116352408, 1899447441, 3049323471, 3921009573, 961987163,
   1508970993, 2453635748, 2870763221, 3624381080, 310598401,
   607225278, 1426881987, 1925078388, 2162078206, 2614888103,
   3248222580, 3835390401, 4022224774, 264347078, 604807628,
   770255983, 1249150122, 1555081692, 1996064986, 2554220882,
   2821834349, 2952996808, 3210313671, 3336571891, 3584528711,
   113926993, 338241895, 666307205, 773529912, 1294757372,
   1396182291, 1695183700, 1986661051, 2177026350, 2456956037,
   2730485921, 2820302411, 3259730800, 3345764771, 3516065817,
   3600352804, 4094571909, 275423344, 430227734, 506948616,
   659060556, 883997877, 958139571, 1322822218, 1537002063,
   1747873779, 1955562222, 2024104815, 2227730452, 2361852424,
   2428436474, 2756734187, 3204031479, 3329325298]

/-- Running state of the SHA-256 compression function. -/
structure Hash8 where
  a : Nat
  b : Nat
  c : Nat
  d : Nat
  e : Nat
  f : Nat
  g : Nat
  h : Nat
deriving DecidableEq, Repr

/-- SHA-256 initial hash value (decimal). -/
def shaH0 : Hash8 :=
  ⟨1779033703, 3144134277, 1013904242, 2773480762,
   1359893119, 2600822924, 528734635, 1541459225⟩

/-- Message-schedule extension; `acc` holds the words produced so far in
reverse order, `n` counts the remaining words (48 for a fresh block). -/
def extendWords : Nat → List Nat → List Nat
  | 0, acc => acc.reverse
  | n + 1, acc =>
    let wi := add32 (add32 (smallSigma1 (acc.getD 1 0)) (acc.getD 6 0))
                    (add32 (smallSigma0 (acc.getD 14 0)) (acc.getD 15 0))
    extendWords n (wi :: acc)

/-- One SHA-256 compression round. -/
def shaRound (st : Hash8) (kw : Nat × Nat) : Hash8 :=
  let t1 := add32 st.h (add32 (bigSigma1 st.e) (add32 (shaCh st.e st.f st.g) (add32 kw.1 kw.2)))
  let t2 := add32 (bigSigma0 st.a) (shaMaj st.a st.b st.c)
  ⟨add32 t1 t2, st.a, st.b, st.c, add32 st.d t1, st.e, st.f, st.g⟩

/-- Interpret 4 consecutive bytes of a block as a big-endian word. -/
def wordAt (block : List Nat) (i : Nat) : Nat :=
  block.getD (4 * i) 0 * 16777216 + block.getD (4 * i + 1) 0 * 65536 +
  block.getD (4 * i + 2) 0 * 256 + block.getD (4 * i + 3) 0

/-- The 16 message words of a 64-byte block. -/
def blockWords (block : List Nat) : List Nat :=
  (List.range 16).map (wordAt block)

/-- Compress one 64-byte block into the running hash. -/
def shaCompress (hs : Hash8) (block : List Nat) : Hash8 :=
  let ws := extendWords 48 (blockWords block).reverse
  let st := (shaK.zip ws).foldl shaRound hs
  ⟨add32 hs.a st.a, add32 hs.b st.b, add32 hs.c st.c, add32 hs.d st.d,
   add32 hs.e st.e, add32 hs.f st.f, add32 hs.g st.g, add32 hs.h st.h⟩

/-- The bit length of the message as 8 big-endian bytes. -/
def lengthBytes (bits : Nat) : List Nat :=
  (List.range 8).map (fun i => (bits >>> (56 - 8 * i)) % 256)

/-- SHA-256 padding: `0x80`, zeros to 56 mod 64, then the 64-bit length. -/
def shaPad (msg : List Nat) : List Nat :=
  let L := msg.length
  let zeros := (120 - ((L + 1) % 64)) % 64
  msg ++ [0x80] ++ List.replicate zeros 0 ++ lengthBytes (8 * L)

/-- Split a padded message into its 64-byte blocks. -/
def toBlocks (l : List Nat) : List (List Nat) :=
  (List.range (l.length / 64)).map (fun i => (l.drop (64 * i)).take 64)

/-- UTF-8 encoding of one character (code points, as Python's
`str.encode` produces). -/
def charUtf8 (c : Char) : List Nat :=
  let n := c.toNat
  if n < 128 then [n]
  else if n < 2048 then [192 ||| (n >>> 6), 128 ||| (n &&& 63)]
  else if n < 65536 then
    [224 ||| (n >>> 12), 128 ||| ((n >>> 6) &&& 63), 128 ||| (n &&& 63)]
  else
    [240 ||| (n >>> 18), 128 ||| ((n >>> 12) &&& 63),
     128 ||| ((n >>> 6) &&& 63), 128 ||| (n &&& 63)]

/-- UTF-8 bytes of a string. -/
def utf8Bytes (s : String) : List Nat := (s.data.map charUtf8).flatten

/-- SHA-256 of a byte list, as the 8 words of the digest. -/
def sha256WordsOf (msg : List Nat) : List Nat :=
  let final := (toBlocks (shaPad msg)).foldl shaCompress shaH0
  [final.a, final.b, final.c, final.d, final.e, final.f, final.g, final.h]

/-- Lower-case hex character for a value below 16. -/
def hexChar (n : Nat) : Char :=
  if n < 10 then Char.ofNat (48 + n) else Char.ofNat (87 + n)

/-- A 32-bit word as 8 hex characters, most significant first. -/
def wordToHex (x : Nat) : List Char :=
  (List.range 8).map (fun i => hexChar ((x >>> (28 - 4 * i)) % 16))

/-- `hashlib.sha256(seed.encode("utf-8")).hexdigest()`. -/
def sha256hexdigest (s : String) : String :=
  String.mk (((sha256WordsOf (utf8Bytes s)).map wordToHex).flatten)

/-- Value of a lower-case hex digit character. -/
def hexDigitVal (c : Char) : Nat :=
  if 97 ≤ c.toNat then c.toNat - 87
  else if 65 ≤ c.toNat then c.toNat - 55
  else c.toNat - 48

/-- Python `int(s, 16)` on a hex string. -/
def hexToNat (s : String) : Nat :=
  s.data.foldl (fun acc c => 16 * acc + hexDigitVal c) 0

/-! ## Catalog client (`app/clients/tmdb.py`) -/

/-- `_pick_page` of `app/clients/tmdb.py`: page number in `1..max_pages`
from the first 8 hex characters of the SHA-256 of the seed. -/
def _pick_page (seed : String) (max_pages : Nat) : Nat :=
  let h := sha256hexdigest seed
  hexToNat (h.take 8) % max_pages + 1

/-- `_pick_sort` of `app/clients/tmdb.py`: sort criterion from the parity
of `ord(seed[0])`; `seed[0]` raises `IndexError` on the empty string,
modelled as `none`. -/
def _pick_sort (seed : String) : Option String :=
  match seed.data with
  | [] => none
  | c :: _ => some (if c.toNat % 2 = 0 then "vote_average.desc" else "popularity.desc")

/-- A raw movie object of a catalog JSON response, restricted to the
fields the client reads: `title`, `name`, `vote_average`, `id`. -/
structure RawMovie where
  title : Option String := none
  name : Option String := none
  vote_average : Option ℚ := none
  id : Option Int := none
deriving DecidableEq, Repr

/-- A normalized hit as built by the client loops: `{"title": ...,
"score": ..., "id": ...}`. -/
structure Row where
  title : String
  score : ℚ
  id : Option Int
deriving DecidableEq, Repr

/-- Python truthiness chain `o or k` for an optional string: `None` and
`""` fall through to `k`. -/
def truthyOr (o : Option String) (k : String) : String :=
  match o with
  | some s => if s = "" then k else s
  | none => k

/-- The shared normalization of both client loops: placeholder title,
vote scaled from 0–10 to a score clamped into `[0, 1]`. -/
def normalizeMovie (m : RawMovie) : Row :=
  let title := truthyOr m.title (truthyOr m.name "Desconhecido")
  let vote := m.vote_average.getD 0
  { title := title, score := max 0 (min 1 (vote / 10)), id := m.id }

/-- Equality of modelled exception results is decidable. -/
instance instDecEqExcept {e a : Type} [DecidableEq e] [DecidableEq a] :
    DecidableEq (Except e a)
  | Except.error x, Except.error y =>
    if h : x = y then isTrue (by rw [h])
    else isFalse (by intro hc; injection hc; contradiction)
  | Except.error _, Except.ok _ => isFalse (fun hc => Except.noConfusion hc)
  | Except.ok _, Except.error _ => isFalse (fun hc => Except.noConfusion hc)
  | Except.ok x, Except.ok y =>
    if h : x = y then isTrue (by rw [h])
    else isFalse (by intro hc; injection hc; contradiction)

/-- Environment supplying every external response the pipeline can
consume: the remote classifier outcome, the local zero-shot availability
probe and result, and the catalog's discovery / search / watch-provider
HTTP results (`Except.error` is a request that still fails after the
retry policy is exhausted). -/
structure Env where
  remote : RemoteOutcome
  localAvailable : Bool
  localResult : Except Unit (List (String × Int))
  discoverResults : List Int → Nat → String → Except Unit (List RawMovie)
  searchResults : String → Except Unit (List RawMovie)
  providerResults : Int → Except Unit (List String)

/-- `TMDBClient.discover_by_genres`: computes page and sort from the
seed (`_pick_sort` raises on an empty seed, which the retry wrapper
re-raises), then normalizes the first 10 results. -/
def discover_by_genres (env : Env) (genre_ids : List Int) (seed : String) :
    Except Unit (List Row) :=
  match _pick_sort seed with
  | none => Except.error ()
  | some sort_by =>
    match env.discoverResults genre_ids (_pick_page seed 5) sort_by with
    | Except.error e => Except.error e
    | Except.ok results => Except.ok ((results.take 10).map normalizeMovie)

/-- `TMDBClient.search_by_mood`: free-text search, same normalization,
capped at 10 hits. -/
def search_by_mood (env : Env) (mood : String) : Except Unit (List Row) :=
  match env.searchResults mood with
  | Except.error e => Except.error e
  | Except.ok results => Except.ok ((results.take 10).map normalizeMovie)

/-! ## Orchestrator (`app/services/recommendation_service.py`) -/

/-- One upstream invocation performed while serving a request. -/
inductive Effect where
  | remoteClassify
  | localClassify
  | discoverCall (genre_ids : List Int) (seed : String)
  | searchCall (mood : String)
  | providersCall (movie_id : Int)
deriving DecidableEq, Repr

/-- `(settings.ai_mode or "remote").lower()`. -/
def effectiveMode (ai_mode : Option String) : String :=
  pyLower (match ai_mode with
   | none => "remote"
   | some s => if s = "" then "remote" else s)

/-- The mode dispatch of `recommend_by_mood` producing `top`: off mode
uses the static mapping; remote mode calls Gemini and falls back to the
static mapping on any exception; otherwise the local path runs when
available (its exceptions propagate) and falls back statically when
not. -/
def classifyStep (mode : String) (env : Env) (mood : String) :
    Except Unit (List (String × Int)) × List Effect :=
  if mode = "off" then (Except.ok (fallback_genres_for mood 2), [])
  else if mode = "remote" then
    match map_via_gemini_api env.remote 2 with
    | Except.ok top => (Except.ok top, [Effect.remoteClassify])
    | Except.error _ => (Except.ok (fallback_genres_for mood 2), [Effect.remoteClassify])
  else
    if env.localAvailable then (env.localResult, [Effect.localClassify])
    else (Except.ok (fallback_genres_for mood 2), [])

/-- `[gid for _, gid in (top or [])] or [35]`: the ids of `top`, and the
hard-coded Comedy id when that list is empty. -/
def genreIdsOf (top : List (String × Int)) : List Int :=
  let gids := top.map Prod.snd
  if gids = [] then [35] else gids

/-- Steps 3 of the orchestrator: genre discovery, then free-text search
when discovery yields zero hits. -/
def rowsStep (env : Env) (genre_ids : List Int) (mood seed : String) :
    Except Unit (List Row) × List Effect :=
  match discover_by_genres env genre_ids seed with
  | Except.error _ => (Except.error (), [Effect.discoverCall genre_ids seed])
  | Except.ok rows =>
    if rows = [] then
      match search_by_mood env mood with
      | Except.error _ =>
        (Except.error (), [Effect.discoverCall genre_ids seed, Effect.searchCall mood])
      | Except.ok rows2 =>
        (Except.ok rows2, [Effect.discoverCall genre_ids seed, Effect.searchCall mood])
    else (Except.ok rows, [Effect.discoverCall genre_ids seed])

/-- Provider enrichment for one hit: only when enabled and the id is
present; a failing fetch is swallowed and leaves the list absent. -/
def enrichProviders (env : Env) (include_prov : Bool) (r : Row) :
    Option (List String) × List Effect :=
  if include_prov then
    match r.id with
    | some mid =>
      (match env.providerResults mid with
       | Except.ok ps => some ps
       | Except.error _ => none,
       [Effect.providersCall mid])
    | none => (none, [])
  else (none, [])

/-- The item-building loop of `recommend_by_mood`: each hit becomes a
`Recommendation` with the source tag the code gives catalog hits. -/
def buildItems (env : Env) (include_prov : Bool) (rows : List Row) :
    List Recommendation × List Effect :=
  (rows.map (fun r =>
     { title := r.title, source := "TMDB", score := r.score,
       providers := (enrichProviders env include_prov r).1 }),
   (rows.map (fun r => (enrichProviders env include_prov r).2)).flatten)

/-- The body of the `try` block of `recommend_by_mood`: classification,
catalog query, item building; `Except.error` is an exception escaping to
the orchestrator's top-level `except`. -/
def runCore (mode : String) (env : Env) (include_prov : Bool) (mood seed : String) :
    Except Unit (List Recommendation) × List Effect :=
  match classifyStep mode env mood with
  | (Except.error _, tr) => (Except.error (), tr)
  | (Except.ok top, tr) =>
    let genre_ids := genreIdsOf top
    match rowsStep env genre_ids mood seed with
    | (Except.error _, tr2) => (Except.error (), tr ++ tr2)
    | (Except.ok rows, tr2) =>
      let built := buildItems env include_prov rows
      (Except.ok built.1, tr ++ tr2 ++ built.2)

/-- The synthetic fallback item of the top-level `except` handler. -/
def fallbackRec (mood : String) : Recommendation :=
  { title := "Fallback pick for \x27" ++ mood ++ "\x27",
    source := "fallback", score := 1/2, providers := none }

/-! ## TTL cache (`cachetools.TTLCache(maxsize=512, ttl=600)`) -/

/-- Cache TTL in seconds. -/
def cacheTTL : Nat := 600

/-- Cache state: key, expiry instant, stored value. -/
abbrev Cache := List (String × Nat × RecommendationList)

/-- `key in cache` / `cache[key]` of `TTLCache`: present and unexpired. -/
def cacheLookup (c : Cache) (key : String) (now : Nat) :
    Option RecommendationList :=
  match c.find? (fun e => e.1 = key) with
  | some e => if now < e.2.1 then some e.2.2 else none
  | none => none

/-- `cache[key] = v` of `TTLCache`: store with expiry `now + ttl`,
replacing any previous entry for the key. -/
def cacheInsert (c : Cache) (key : String) (now : Nat)
    (v : RecommendationList) : Cache :=
  (key, now + cacheTTL, v) :: c.filter (fun e => e.1 ≠ key)

/-- `RecommendationService.recommend_by_mood`: normalize the mood into
the cache key, serve a hit immediately, otherwise run the pipeline,
degrade any escaped exception to the single synthetic fallback item,
store the result and return it together with the new cache state and the
trace of upstream invocations. -/
def recommend_by_mood (ai_mode : Option String) (include_prov : Bool)
    (env : Env) (c : Cache) (now : Nat) (mood : String) :
    RecommendationList × Cache × List Effect :=
  let seed := normalizeMood mood
  let key := "recs:" ++ seed
  match cacheLookup c key now with
  | some v => (v, c, [])
  | none =>
    let rc := runCore (effectiveMode ai_mode) env include_prov mood seed
    let items :=
      match rc.1 with
      | Except.ok its => its
      | Except.error _ => [fallbackRec mood]
    let result : RecommendationList := ⟨items⟩
    (result, cacheInsert c key now result, rc.2)

/-! ## Concrete environments used by witnesses and counterexamples -/

/-- Environment in which every upstream call fails (network errors after
exhausted retries everywhere). -/
def envAllFail : Env :=
  ⟨RemoteOutcome.netError, false, Except.error (),
   fun _ _ _ => Except.error (), fun _ => Except.error (),
   fun _ => Except.error ()⟩

/-- Environment in which the catalog answers successfully but with zero
hits on both the discovery and the search path. -/
def envZeroHits : Env :=
  ⟨RemoteOutcome.netError, false, Except.error (),
   fun _ _ _ => Except.ok [], fun _ => Except.ok [],
   fun _ => Except.error ()⟩

/-! ## Helper lemmas -/

/-- Every entry of the static fallback table is found by the lookup that
`fallback_genres_for` performs on its own key. -/
theorem fallback_map_find :
    ∀ p ∈ FALLBACK_MAP, FALLBACK_MAP.find? (fun q => q.1 = p.1) = some p := by
  decide

/-- Every genre name of every fallback-table entry is in the vocabulary,
paired with the id the lookup produces. -/
theorem fallback_map_names_in_vocab :
    ∀ p ∈ FALLBACK_MAP, ∀ n ∈ p.2, (n, tmdbGenreId n) ∈ TMDB_GENRES := by
  decide

/-- A string distinct from `""` has a nonempty character list. -/
theorem data_ne_nil_of_ne_empty (s : String) (h : s ≠ "") : s.data ≠ [] := by
  intro hd
  apply h
  cases s with
  | mk data =>
    rw [show data = [] from hd]

/-! ## Claim theorems -/

/-- C3: for every nonempty seed string, the page is
`int(sha256(s)[:8 hex], 16) mod 5 + 1`, a value in `[1, 5]`; the sort is
`vote_average.desc` (criterion B) exactly when `ord(s[0])` is even and
`popularity.desc` (criterion A) otherwise; and the page/sort choice is a
pure function of the seed, identical across repeated calls. -/
theorem pick_page_sort_deterministic (s : String) (hs : s ≠ "") :
    _pick_page s 5 = hexToNat ((sha256hexdigest s).take 8) % 5 + 1
    ∧ 1 ≤ _pick_page s 5 ∧ _pick_page s 5 ≤ 5
    ∧ _pick_sort s = some (if (s.data.headD 'A').toNat % 2 = 0
        then "vote_average.desc" else "popularity.desc")
    ∧ ∀ t : String, t = s →
        (_pick_page t 5, _pick_sort t) = (_pick_page s 5, _pick_sort s) := by
  have hlt : hexToNat ((sha256hexdigest s).take 8) % 5 < 5 :=
    Nat.mod_lt _ (by norm_num)
  refine ⟨rfl, ?_, ?_, ?_, ?_⟩
  · simp only [_pick_page]
    omega
  · simp only [_pick_page]
    omega
  · have hd := data_ne_nil_of_ne_empty s hs
    unfold _pick_sort
    cases hdata : s.data with
    | nil => exact absurd hdata hd
    | cons c rest => simp [hdata]
  · intro t ht
    rw [ht]

/-- Witness for C3 at the seed `"a"`. -/
theorem pick_page_sort_deterministic_witness :
    1 ≤ _pick_page "a" 5 ∧ _pick_page "a" 5 ≤ 5
    ∧ _pick_sort "a" = some (if ("a".data.headD 'A').toNat % 2 = 0
        then "vote_average.desc" else "popularity.desc") :=
  ⟨(pick_page_sort_deterministic "a" (by decide)).2.1,
   (pick_page_sort_deterministic "a" (by decide)).2.2.1,
   (pick_page_sort_deterministic "a" (by decide)).2.2.2.1⟩

/-- C7: in "off" mode classification is exactly `fallback_genres_for`;
for a mood whose lower-cased form is a key of the static table it returns
the table's genre list in order, truncated to the first `top_k = 2`
entries, each name paired with its vocabulary id; a non-empty mood whose
lower-cased form is not a key yields the single default genre. -/
theorem off_mode_static_fidelity (mood : String) (hne : mood ≠ "") :
    (∀ env : Env, classifyStep "off" env mood
       = (Except.ok (fallback_genres_for mood 2), []))
    ∧ (∀ key names, (key, names) ∈ FALLBACK_MAP → pyLower mood = key →
        fallback_genres_for mood 2 = (names.take 2).map (fun n => (n, tmdbGenreId n))
        ∧ ∀ p ∈ fallback_genres_for mood 2, p ∈ TMDB_GENRES)
    ∧ ((∀ p ∈ FALLBACK_MAP, pyLower mood ≠ p.1) →
        fallback_genres_for mood 2 = [("Comedy", 35)]) := by
  refine ⟨fun env => rfl, ?_, ?_⟩
  · intro key names hmem hlow
    have hfind : FALLBACK_MAP.find? (fun q => q.1 = pyLower mood) = some (key, names) := by
      have := fallback_map_find (key, names) hmem
      simpa [hlow] using this
    have hres : fallback_genres_for mood 2
        = (names.take 2).map (fun n => (n, tmdbGenreId n)) := by
      simp only [fallback_genres_for, if_neg hne]
      rw [hfind]
    refine ⟨hres, ?_⟩
    intro p hp
    rw [hres] at hp
    obtain ⟨n, hn, hpn⟩ := List.mem_map.mp hp
    rw [← hpn]
    exact fallback_map_names_in_vocab (key, names) hmem n (List.take_subset 2 names hn)
  · intro hnot
    have hfind : FALLBACK_MAP.find? (fun q => q.1 = pyLower mood) = none := by
      rw [List.find?_eq_none]
      intro p hp
      simpa using (hnot p hp).symm
    simp only [fallback_genres_for, if_neg hne]
    rw [hfind]
    rfl

/-- Witness for C7 at the moods `"FELIZ"` (a table key up to case) and
`"curious"` (not a key). -/
theorem off_mode_static_fidelity_witness :
    fallback_genres_for "FELIZ" 2
      = (["Comedy", "Romance"].take 2).map (fun n => (n, tmdbGenreId n))
    ∧ fallback_genres_for "curious" 2 = [("Comedy", 35)] :=
  ⟨((off_mode_static_fidelity "FELIZ" (by decide)).2.1 "feliz" ["Comedy", "Romance"]
      (by decide) (by decide)).1,
   (off_mode_static_fidelity "curious" (by decide)).2.2 (by decide)⟩

/-- On a cache hit, `recommend_by_mood` returns the cached value, leaves
the cache unchanged and performs no upstream call. -/
theorem recommend_by_mood_hit (ai_mode : Option String) (include_prov : Bool)
    (env : Env) (c : Cache) (now : Nat) (mood : String) (v : RecommendationList)
    (hhit : cacheLookup c ("recs:" ++ normalizeMood mood) now = some v) :
    recommend_by_mood ai_mode include_prov env c now mood = (v, c, []) := by
  simp only [recommend_by_mood]
  rw [hhit]

/-- On a cache miss, `recommend_by_mood` runs the pipeline, degrades an
escaped exception to the synthetic fallback item and stores the result. -/
theorem recommend_by_mood_miss (ai_mode : Option String) (include_prov : Bool)
    (env : Env) (c : Cache) (now : Nat) (mood : String)
    (hmiss : cacheLookup c ("recs:" ++ normalizeMood mood) now = none) :
    recommend_by_mood ai_mode include_prov env c now mood
      = (⟨match (runCore (effectiveMode ai_mode) env include_prov mood (normalizeMood mood)).1 with
          | Except.ok its => its
          | Except.error _ => [fallbackRec mood]⟩,
         cacheInsert c ("recs:" ++ normalizeMood mood) now
           ⟨match (runCore (effectiveMode ai_mode) env include_prov mood (normalizeMood mood)).1 with
            | Except.ok its => its
            | Except.error _ => [fallbackRec mood]⟩,
         (runCore (effectiveMode ai_mode) env include_prov mood (normalizeMood mood)).2) := by
  simp only [recommend_by_mood]
  rw [hmiss]

/-- A fresh cache entry is served until its expiry instant. -/
theorem cacheLookup_insert (c : Cache) (k : String) (n t : Nat)
    (v : RecommendationList) :
    cacheLookup (cacheInsert c k n v) k t
      = if t < n + cacheTTL then some v else none := by
  simp [cacheLookup, cacheInsert]

/-- Every branch of the discovery-then-search step records the discovery
invocation with the genre ids it was passed. -/
theorem rowsStep_mem_discover (env : Env) (gids : List Int) (mood seed : String) :
    Effect.discoverCall gids seed ∈ (rowsStep env gids mood seed).2 := by
  unfold rowsStep
  rcases discover_by_genres env gids seed with _ | rows
  · simp
  · rcases hrows : rows with _ | _
    · rcases search_by_mood env mood with _ | _ <;> simp
    · simp

/-- Items built from catalog hits all carry the catalog source tag. -/
theorem runCore_ok_sources (mode : String) (env : Env) (include_prov : Bool)
    (mood seed : String) (its : List Recommendation)
    (hok : (runCore mode env include_prov mood seed).1 = Except.ok its) :
    ∀ r ∈ its, r.source = "TMDB" := by
  unfold runCore at hok
  rcases hcl : classifyStep mode env mood with ⟨res, tr⟩
  rw [hcl] at hok
  rcases res with _ | top
  · simp at hok
  · rcases hrs : rowsStep env (genreIdsOf top) mood seed with ⟨res2, tr2⟩
    simp only [hrs] at hok
    rcases res2 with _ | rows
    · simp at hok
    · simp only [buildItems] at hok
      injection hok with hok
      rw [← hok]
      intro r hr
      obtain ⟨x, _, hx⟩ := List.mem_map.mp hr
      rw [← hx]

/-- C1: when an exception escapes the classify/catalog/enrichment steps
on a cache miss, it is not propagated: the returned list holds exactly
one synthetic item with source "fallback", score 0.5 and a title that
contains the original mood text. -/
theorem unrecoverable_failure_single_fallback (ai_mode : Option String)
    (include_prov : Bool) (env : Env) (c : Cache) (now : Nat) (mood : String)
    (hmiss : cacheLookup c ("recs:" ++ normalizeMood mood) now = none)
    (herr : (runCore (effectiveMode ai_mode) env include_prov mood
               (normalizeMood mood)).1 = Except.error ()) :
    (recommend_by_mood ai_mode include_prov env c now mood).1.items
      = [fallbackRec mood]
    ∧ (fallbackRec mood).source = "fallback"
    ∧ (fallbackRec mood).score = 1/2
    ∧ ∃ pre post, (fallbackRec mood).title = pre ++ mood ++ post := by
  refine ⟨?_, rfl, rfl, ⟨"Fallback pick for \x27", "\x27", rfl⟩⟩
  rw [recommend_by_mood_miss ai_mode include_prov env c now mood hmiss]
  dsimp only
  rw [herr]

/-- Witness for C1: every upstream call fails for the mood "triste". -/
theorem unrecoverable_failure_single_fallback_witness :
    (recommend_by_mood (some "off") false envAllFail [] 0 "triste").1.items
      = [fallbackRec "triste"] :=
  (unrecoverable_failure_single_fallback (some "off") false envAllFail [] 0 "triste"
     (by decide) (by rfl)).1

/-- C2 counterexample: for the mood "feliz", when classification succeeds
and both catalog paths succeed with zero hits, `recommend_by_mood`
returns an empty `RecommendationList` — the claimed unconditional
non-emptiness fails. -/
theorem zero_hit_success_empty_result_cex :
    (recommend_by_mood (some "off") false envZeroHits [] 0 "feliz").1.items
      = [] := by
  decide

/-- C2 amended: on a cache miss the returned list is empty exactly when
the pipeline completes without an exception but with zero catalog hits
from both paths; in every other case — every escaped exception included —
the list is non-empty thanks to the synthetic fallback. -/
theorem nonempty_unless_zero_hit_success (ai_mode : Option String)
    (include_prov : Bool) (env : Env) (c : Cache) (now : Nat) (mood : String)
    (hmiss : cacheLookup c ("recs:" ++ normalizeMood mood) now = none) :
    (recommend_by_mood ai_mode include_prov env c now mood).1.items = []
      ↔ (runCore (effectiveMode ai_mode) env include_prov mood
           (normalizeMood mood)).1 = Except.ok [] := by
  rw [recommend_by_mood_miss ai_mode include_prov env c now mood hmiss]
  dsimp only
  rcases hrc : (runCore (effectiveMode ai_mode) env include_prov mood
      (normalizeMood mood)).1 with e | its
  · simp [fallbackRec]
  · simp

/-- Witness for the amended C2 in both directions: empty on zero-hit
success, non-empty when everything fails. -/
theorem nonempty_unless_zero_hit_success_witness :
    ((recommend_by_mood (some "off") false envZeroHits [] 0 "sad").1.items = []
      ↔ (runCore (effectiveMode (some "off")) envZeroHits false "sad"
           (normalizeMood "sad")).1 = Except.ok [])
    ∧ ((recommend_by_mood (some "off") false envAllFail [] 0 "sad").1.items = []
      ↔ (runCore (effectiveMode (some "off")) envAllFail false "sad"
           (normalizeMood "sad")).1 = Except.ok []) :=
  ⟨nonempty_unless_zero_hit_success (some "off") false envZeroHits [] 0 "sad" (by decide),
   nonempty_unless_zero_hit_success (some "off") false envAllFail [] 0 "sad" (by decide)⟩

/-- C4: every item built from a catalog hit carries the catalog source
tag (the literal the code uses is "TMDB", the spec's "catalog"), and —
with a cache whose entries obey the enumeration — every returned item's
source is one of the two enumerated tags. -/
theorem source_tag_enumeration (ai_mode : Option String) (include_prov : Bool)
    (env : Env) (c : Cache) (now : Nat) (mood : String) (rows : List Row)
    (hcache : ∀ e ∈ c, ∀ r ∈ e.2.2.items,
       r.source = "TMDB" ∨ r.source = "fallback") :
    (∀ r ∈ (buildItems env include_prov rows).1, r.source = "TMDB")
    ∧ (∀ r ∈ (recommend_by_mood ai_mode include_prov env c now mood).1.items,
        r.source = "TMDB" ∨ r.source = "fallback") := by
  constructor
  · intro r hr
    obtain ⟨x, _, hx⟩ := List.mem_map.mp hr
    rw [← hx]
  · rcases hl : cacheLookup c ("recs:" ++ normalizeMood mood) now with _ | v
    · rw [recommend_by_mood_miss ai_mode include_prov env c now mood hl]
      dsimp only
      rcases hrc : (runCore (effectiveMode ai_mode) env include_prov mood
          (normalizeMood mood)).1 with e | its
      · intro r hr
        simp only [List.mem_singleton] at hr
        rw [hr]
        exact Or.inr rfl
      · intro r hr
        exact Or.inl (runCore_ok_sources _ _ _ _ _ _ hrc r hr)
    · rw [recommend_by_mood_hit ai_mode include_prov env c now mood v hl]
      unfold cacheLookup at hl
      rcases hfind : c.find? (fun e => e.1 = "recs:" ++ normalizeMood mood) with _ | e
      · rw [hfind] at hl
        simp at hl
      · rw [hfind] at hl
        dsimp only at hl
        have hmem := List.mem_of_find?_eq_some hfind
        rcases Decidable.em (now < e.2.1) with hlt | hge
        · rw [if_pos hlt] at hl
          injection hl with hl
          rw [← hl]
          exact hcache e hmem
        · rw [if_neg hge] at hl
          exact absurd hl (by simp)

/-- Witness for C4 at concrete inputs with an empty cache and one
already-normalized catalog row. -/
theorem source_tag_enumeration_witness :
    (∀ r ∈ (buildItems envZeroHits false [⟨"Amelie", 4/5, some 7⟩]).1,
       r.source = "TMDB")
    ∧ (∀ r ∈ (recommend_by_mood (some "off") false envAllFail [] 0 "feliz").1.items,
        r.source = "TMDB" ∨ r.source = "fallback") :=
  source_tag_enumeration (some "off") false envAllFail [] 0 "feliz"
    [⟨"Amelie", 4/5, some 7⟩] (by simp)

/-- C5: after a first call on a cache miss, any second call within the
TTL whose trimmed lower-cased mood matches the cached key — regardless of
mode, configuration or upstream environment — returns the identical
`RecommendationList`, leaves the cache unchanged and performs no
classifier, catalog or enrichment invocation. -/
theorem cache_idempotence (a1 a2 : Option String) (p1 p2 : Bool)
    (env1 env2 : Env) (c : Cache) (t1 t2 : Nat) (m1 m2 : String)
    (hmiss : cacheLookup c ("recs:" ++ normalizeMood m1) t1 = none)
    (hnorm : normalizeMood m2 = normalizeMood m1)
    (ht : t2 < t1 + cacheTTL) :
    recommend_by_mood a2 p2 env2 (recommend_by_mood a1 p1 env1 c t1 m1).2.1 t2 m2
      = ((recommend_by_mood a1 p1 env1 c t1 m1).1,
         (recommend_by_mood a1 p1 env1 c t1 m1).2.1, []) := by
  rw [recommend_by_mood_miss a1 p1 env1 c t1 m1 hmiss]
  dsimp only
  apply recommend_by_mood_hit
  rw [hnorm, cacheLookup_insert]
  exact if_pos ht

/-- Witness for C5: mood "feliz" cached at time 0, re-requested at time 1
as "FELIZ " with a different mode and environment. -/
theorem cache_idempotence_witness :
    recommend_by_mood (some "remote") true envZeroHits
        (recommend_by_mood (some "off") false envAllFail [] 0 "feliz").2.1 1 "FELIZ "
      = ((recommend_by_mood (some "off") false envAllFail [] 0 "feliz").1,
         (recommend_by_mood (some "off") false envAllFail [] 0 "feliz").2.1, []) :=
  cache_idempotence (some "off") (some "remote") false true envAllFail envZeroHits
    [] 0 1 "feliz" "FELIZ " (by decide) (by decide) (by decide)

/-- The classification step in remote mode when the Gemini call raises:
the exception is absorbed and the static mapping is used. -/
theorem classifyStep_remote_error (env : Env) (mood msg : String)
    (herr : map_via_gemini_api env.remote 2 = Except.error msg) :
    classifyStep "remote" env mood
      = (Except.ok (fallback_genres_for mood 2), [Effect.remoteClassify]) := by
  unfold classifyStep
  rw [if_neg (by decide), if_pos rfl, herr]

/-- The classification step in off mode is the static mapping. -/
theorem classifyStep_off (env : Env) (mood : String) :
    classifyStep "off" env mood
      = (Except.ok (fallback_genres_for mood 2), []) := rfl

/-- C6: on a cache miss in remote mode, whenever the remote classifier
raises — a network error, a missing key, or a valid JSON response with
zero vocabulary-matching genres, which itself raises rather than
returning an empty list — the result (and the stored cache entry) equals
that of the same request in off mode against the same catalog. -/
theorem remote_failure_fallback_equiv (include_prov : Bool) (env : Env)
    (c : Cache) (now : Nat) (mood msg : String)
    (hmiss : cacheLookup c ("recs:" ++ normalizeMood mood) now = none)
    (herr : map_via_gemini_api env.remote 2 = Except.error msg) :
    ((recommend_by_mood (some "remote") include_prov env c now mood).1
       = (recommend_by_mood (some "off") include_prov env c now mood).1
     ∧ (recommend_by_mood (some "remote") include_prov env c now mood).2.1
       = (recommend_by_mood (some "off") include_prov env c now mood).2.1)
    ∧ (∀ names l, map_via_gemini_api (RemoteOutcome.response names) 2 = Except.ok l
        → l ≠ []) := by
  have heffr : effectiveMode (some "remote") = "remote" := by decide
  have heffo : effectiveMode (some "off") = "off" := by decide
  have hrun : (runCore "remote" env include_prov mood (normalizeMood mood)).1
      = (runCore "off" env include_prov mood (normalizeMood mood)).1 := by
    unfold runCore
    rw [classifyStep_remote_error env mood msg herr, classifyStep_off env mood]
    dsimp only
    rcases rowsStep env (genreIdsOf (fallback_genres_for mood 2)) mood
        (normalizeMood mood) with ⟨res2, tr2⟩
    rcases res2 with e | rows <;> rfl
  constructor
  · rw [recommend_by_mood_miss (some "remote") include_prov env c now mood hmiss,
        recommend_by_mood_miss (some "off") include_prov env c now mood hmiss]
    dsimp only
    rw [heffr, heffo, hrun]
    exact ⟨rfl, rfl⟩
  · intro names l hok
    simp only [map_via_gemini_api] at hok
    rcases hval : names.filter
        (fun g => (TMDB_GENRES.find? (fun p => p.1 = g)).isSome) with _ | ⟨n, rest⟩
    · rw [hval] at hok
      simp at hok
    · rw [hval] at hok
      simp only [List.cons_ne_nil, if_neg] at hok
      injection hok with hok
      rw [← hok]
      simp

/-- Witness for C6: remote network error for the mood "bravo" with a
zero-hit catalog. -/
theorem remote_failure_fallback_equiv_witness :
    (recommend_by_mood (some "remote") false envZeroHits [] 0 "bravo").1
      = (recommend_by_mood (some "off") false envZeroHits [] 0 "bravo").1 :=
  ((remote_failure_fallback_equiv false envZeroHits [] 0 "bravo"
      "HTTP client error" (by decide) (by decide)).1).1

/-- C8: when the classifier (after any fallback) yields an empty genre
list — as the off-mode classification of the empty mood does — the
orchestrator queries catalog discovery with exactly the hard-coded
Comedy id `[35]`; the id list passed to discovery is never empty. -/
theorem default_genre_substitution (ai_mode : Option String)
    (include_prov : Bool) (env : Env) (c : Cache) (now : Nat) (mood : String)
    (tr : List Effect)
    (hmiss : cacheLookup c ("recs:" ++ normalizeMood mood) now = none)
    (hclass : classifyStep (effectiveMode ai_mode) env mood
       = (Except.ok [], tr)) :
    fallback_genres_for "" 2 = []
    ∧ genreIdsOf [] = [35]
    ∧ (∀ top, genreIdsOf top ≠ [])
    ∧ Effect.discoverCall [35] (normalizeMood mood)
        ∈ (recommend_by_mood ai_mode include_prov env c now mood).2.2 := by
  refine ⟨rfl, rfl, ?_, ?_⟩
  · intro top
    unfold genreIdsOf
    rcases htop : top.map Prod.snd with _ | _
    · simp
    · simp
  · rw [recommend_by_mood_miss ai_mode include_prov env c now mood hmiss]
    dsimp only
    unfold runCore
    rw [hclass]
    dsimp only
    have hmem := rowsStep_mem_discover env (genreIdsOf []) mood (normalizeMood mood)
    rcases h2 : rowsStep env (genreIdsOf []) mood (normalizeMood mood) with ⟨res2, tr2⟩
    rw [h2] at hmem
    rcases res2 with e | rows
    · exact List.mem_append_right tr hmem
    · exact List.mem_append_left _ (List.mem_append_right tr hmem)

/-- Witness for C8: empty mood in off mode with an all-failing
environment. -/
theorem default_genre_substitution_witness :
    Effect.discoverCall [35] (normalizeMood "")
      ∈ (recommend_by_mood (some "off") false envAllFail [] 0 "").2.2 :=
  (default_genre_substitution (some "off") false envAllFail [] 0 "" []
     (by decide) (by rfl)).2.2.2

/-- C9 counterexample: on the synthetic-fallback path the cache is *not*
left unchanged — the fallback list is stored, and a repeat request with
the same normalized mood within the TTL is served that fallback from the
cache with zero upstream re-attempts instead of retrying upstream. -/
theorem fallback_result_cached_cex :
    (recommend_by_mood (some "off") false envAllFail [] 0 "sad").2.1 ≠ ([] : Cache)
    ∧ (recommend_by_mood (some "off") false envAllFail
         ((recommend_by_mood (some "off") false envAllFail [] 0 "sad").2.1)
         1 "sad").2.2 = []
    ∧ (recommend_by_mood (some "off") false envAllFail
         ((recommend_by_mood (some "off") false envAllFail [] 0 "sad").2.1)
         1 "sad").1.items = [fallbackRec "sad"] := by
  refine ⟨fun h => List.noConfusion h, by rfl, by rfl⟩

/-- C9 amended: on every cache miss — the synthetic-fallback path
included — the final list is stored under the normalized key before
returning. -/
theorem cache_insert_always (ai_mode : Option String) (include_prov : Bool)
    (env : Env) (c : Cache) (now : Nat) (mood : String)
    (hmiss : cacheLookup c ("recs:" ++ normalizeMood mood) now = none) :
    (recommend_by_mood ai_mode include_prov env c now mood).2.1
      = cacheInsert c ("recs:" ++ normalizeMood mood) now
          (recommend_by_mood ai_mode include_prov env c now mood).1 := by
  rw [recommend_by_mood_miss ai_mode include_prov env c now mood hmiss]

/-- Witness for the amended C9 on the failing path for the mood "sad". -/
theorem cache_insert_always_witness :
    (recommend_by_mood (some "off") false envAllFail [] 0 "sad").2.1
      = cacheInsert [] ("recs:" ++ normalizeMood "sad") 0
          (recommend_by_mood (some "off") false envAllFail [] 0 "sad").1 :=
  cache_insert_always (some "off") false envAllFail [] 0 "sad" (by decide)

/-- C10: `_pick_sort` is undefined (raises) on the empty seed, so every
catalog discovery call with an empty seed fails; hence for any mood that
normalizes to the empty string, a cache miss yields the single synthetic
fallback recommendation, never a catalog result. -/
theorem whitespace_mood_synthetic_fallback (ai_mode : Option String)
    (include_prov : Bool) (env : Env) (c : Cache) (now : Nat) (mood : String)
    (hws : normalizeMood mood = "")
    (hmiss : cacheLookup c ("recs:" ++ normalizeMood mood) now = none) :
    _pick_sort "" = none
    ∧ (∀ (env2 : Env) (gids : List Int),
        discover_by_genres env2 gids "" = Except.error ())
    ∧ (recommend_by_mood ai_mode include_prov env c now mood).1.items
        = [fallbackRec mood] := by
  have hdisc : ∀ (env2 : Env) (gids : List Int),
      discover_by_genres env2 gids "" = Except.error () := fun _ _ => rfl
  refine ⟨rfl, hdisc, ?_⟩
  have herr : (runCore (effectiveMode ai_mode) env include_prov mood
      (normalizeMood mood)).1 = Except.error () := by
    rw [hws]
    unfold runCore
    rcases hcl : classifyStep (effectiveMode ai_mode) env mood with ⟨res, tr⟩
    rcases res with e | top
    · rfl
    · dsimp only
      have h2 : rowsStep env (genreIdsOf top) mood ""
          = (Except.error (), [Effect.discoverCall (genreIdsOf top) ""]) := by
        unfold rowsStep
        rw [hdisc]
      rw [h2]
  rw [recommend_by_mood_miss ai_mode include_prov env c now mood hmiss]
  dsimp only
  rw [herr]

/-- Witness for C10 at the all-whitespace mood `"   "`. -/
theorem whitespace_mood_synthetic_fallback_witness :
    (recommend_by_mood (some "remote") false envZeroHits [] 0 "   ").1.items
      = [fallbackRec "   "] :=
  (whitespace_mood_synthetic_fallback (some "remote") false envZeroHits [] 0 "   "
     (by decide) (by decide)).2.2

/-- The SHA-256 embedding reproduces the standard test vectors, so
`_pick_page` is computed from the real hash. -/
theorem sha256hexdigest_test_vectors :
    sha256hexdigest ""
      = "e3b0c44298fc1c149afbf4c8996fb92427ae41e4649b934ca495991b7852b855"
    ∧ sha256hexdigest "abc"
      = "ba7816bf8f01cfea414140de5dae2223b00361a396177a9cb410ff61f20015ad" := by
  constructor <;> decide
